import Mathlib

/-!
# Verification of the scroll-mirror library

A shallow embedding of `src/index.ts` (class `ScrollMirror`), which mirrors
the scroll position of multiple scrollable regions on a page.

Modelling conventions:
* CSSOM extents (`scrollWidth`, `clientWidth`, `scrollHeight`, `clientHeight`)
  are integers (they have WebIDL type `long`), modelled as `ℤ`.
* Scroll offsets (`scrollTop`, `scrollLeft`) are doubles, modelled as `ℚ`
  (exact arithmetic; the code performs only `+`, `-`, `*`, `/`, `max` on them).
* DOM element identity (JavaScript reference equality, used by
  `new Set(...)` deduplication) is modelled by a `ref : Nat` field.
* Listener attachment on an element's event target is a per-region boolean;
  a `requestAnimationFrame` re-attachment scheduled by `mirrorScrollPositions`
  is a per-region `pending` boolean, discharged by the `raf` step.
* Code that can throw (the `progress` getter dereferences `this.elements[0]`,
  which is `undefined` on an empty list, and destructuring `undefined` throws
  a `TypeError`) returns `Option`: `none` models the thrown exception.
* `console.error` / `console.warn` side effects are returned as `List Diag`.
* The IEEE special values that matter to `validateProgress` (JavaScript
  comparisons on `NaN` and the infinities) are modelled separately by `JSNum`;
  the rest of the development works in the finite fragment `ℚ`.
-/

set_option autoImplicit false

namespace ScrollMirror

/-- A scroll progress value: a pair of proportions, one per axis
(`type Progress = { x: number; y: number }` in the source). -/
structure Progress where
  x : ℚ
  y : ℚ
deriving Repr, DecidableEq

/-- The two option flags of the library (`type Options` in the source). -/
structure Options where
  vertical : Bool
  horizontal : Bool
deriving Repr, DecidableEq

/-- The options argument of the constructor: both fields optional
(`Partial<Options>` in the source). -/
structure InitOptions where
  vertical : Option Bool
  horizontal : Option Bool
deriving Repr, DecidableEq

/-- The default options (`readonly defaults: Options` in the source). -/
def defaults : Options := { vertical := true, horizontal := true }

/-- `this.options = { ...this.defaults, ...options }`. -/
def parseOptions (o : InitOptions) : Options :=
  { vertical := o.vertical.getD defaults.vertical
    horizontal := o.horizontal.getD defaults.horizontal }

/-- A DOM element as the library reads it: reference identity (`ref`),
whether it is an `HTMLElement` (`isHTML`), whether it matches the CSS
selector `body *` (`inBody`), whether it has `overflow: auto` or
`overflow: scroll` CSS (`cssOverflow`, read by the spec-described helper
`hasCSSOverflow`), its scroll offsets and its layout extents. -/
structure DomElement where
  ref : Nat
  isHTML : Bool
  inBody : Bool
  cssOverflow : Bool
  scrollTop : ℚ
  scrollLeft : ℚ
  scrollWidth : ℤ
  clientWidth : ℤ
  scrollHeight : ℤ
  clientHeight : ℤ
deriving Repr, DecidableEq

/-- The page context: the document's root scrolling element
(`document.documentElement`). -/
structure Page where
  documentElement : DomElement
deriving Repr, DecidableEq

/-- A candidate passed to the constructor: either a falsy entry
(`null` / `undefined` in a `NodeListOf<Element> | Element[]`) or an element. -/
inductive Candidate where
  | nullish
  | elem (e : DomElement)
deriving Repr, DecidableEq

/-- JavaScript truthiness of a candidate, used by `.filter(Boolean)`. -/
def Candidate.isTruthy : Candidate → Bool
  | .nullish => false
  | .elem _ => true

/-- `getScrollContainer(el)`: return the element itself if it is an
`HTMLElement` matching `body *`, otherwise `document.documentElement`.
A falsy argument fails the `instanceof` test and also resolves to the
document element. -/
def getScrollContainer (page : Page) : Candidate → DomElement
  | .elem e => if e.isHTML && e.inBody then e else page.documentElement
  | .nullish => page.documentElement

/-- `getScrollProgress(el)`: the scroll proportion of an element on both
axes. `!!scrollLeft` is number truthiness (false exactly at `0`; the offset
is finite here), and the divisor is `Math.max(0.00001, available)`. -/
def getScrollProgress (el : DomElement) : Progress :=
  let availableWidth : ℤ := el.scrollWidth - el.clientWidth
  let availableHeight : ℤ := el.scrollHeight - el.clientHeight
  { x := if el.scrollLeft ≠ 0
      then el.scrollLeft / max ((1 : ℚ)/100000) (availableWidth : ℚ) else 0
    y := if el.scrollTop ≠ 0
      then el.scrollTop / max ((1 : ℚ)/100000) (availableHeight : ℚ) else 0 }

/-- `setScrollPosition(progress, target)`: write the proportional offset to
each enabled axis with nonzero available scroll.  The code issues
`target.scrollTo({ top: ... })` then `target.scrollTo({ left: ... })`;
an omitted coordinate leaves that offset unchanged, so the two writes touch
`scrollTop` and `scrollLeft` independently. -/
def setScrollPosition (opts : Options) (progress : Progress) (target : DomElement) :
    DomElement :=
  let availableScrollX : ℤ := target.scrollWidth - target.clientWidth
  let availableScrollY : ℤ := target.scrollHeight - target.clientHeight
  let t1 :=
    if opts.vertical && !(availableScrollY == 0)
      then { target with scrollTop := (availableScrollY : ℚ) * progress.y }
      else target
  if opts.horizontal && !(availableScrollX == 0)
    then { t1 with scrollLeft := (availableScrollX : ℚ) * progress.x }
    else t1

/-- A diagnostic emitted on the console (`console.error` / `console.warn`). -/
inductive Diag where
  | errorTooFewElements
  | warnElementNotDefined
  | warnNoOverflow
  | warnNoCSSOverflow
  | errorProgressAxis (axis : String)
deriving Repr, DecidableEq

/-- Modelled from the spec: the helper `hasOverflow` (imported from
`support/utils.js`, not under `src/`) reports whether the element has
scrollable overflow — the spec warns when "its scroll extent equals its
viewport extent on both axes". -/
def hasOverflow (e : DomElement) : Bool :=
  !(e.scrollHeight == e.clientHeight && e.scrollWidth == e.clientWidth)

/-- Modelled from the spec: the helper `hasCSSOverflow` (imported from
`support/utils.js`, not under `src/`) reports whether the element has
explicit `overflow: auto` or `overflow: scroll` CSS styling. -/
def hasCSSOverflow (e : DomElement) : Bool :=
  e.cssOverflow

/-- The per-element loop of `validateElements`: returns `false` at the first
falsy element (after a `console.warn`), otherwise accumulates the
element-quality warnings and returns `true`.  The list entries are
`Option DomElement` because the runtime array could hold `undefined`. -/
def validateLoop : List (Option DomElement) → Bool × List Diag
  | [] => (true, [])
  | none :: _ => (false, [Diag.warnElementNotDefined])
  | some e :: rest =>
    let warns :=
      (if e.isHTML && !(hasOverflow e) then [Diag.warnNoOverflow] else [])
      ++ (if e.isHTML && e.inBody && !(hasCSSOverflow e)
            then [Diag.warnNoCSSOverflow] else [])
    let tail := validateLoop rest
    (tail.fst, warns ++ tail.snd)

/-- `validateElements()`: `console.error` and `false` when fewer than two
elements, otherwise the per-element loop. -/
def validateElements (elements : List (Option DomElement)) : Bool × List Diag :=
  if elements.length < 2 then (false, [Diag.errorTooFewElements])
  else validateLoop elements

/-- A registered region: the resolved element, whether a scroll handler is
currently attached to its event target, and whether a
`requestAnimationFrame` re-attachment is pending. -/
structure Region where
  el : DomElement
  attached : Bool
  pending : Bool
deriving Repr, DecidableEq

/-- The state of a `ScrollMirror` instance. -/
structure Mirror where
  regions : List Region
  options : Options
  paused : Bool
deriving Repr, DecidableEq

/-- `pause()`. -/
def pause (m : Mirror) : Mirror := { m with paused := true }

/-- `resume()`. -/
def resume (m : Mirror) : Mirror := { m with paused := false }

/-- `destroy()`: `removeHandler` on every region's event target.  Pending
`requestAnimationFrame` callbacks are not cancelled. -/
def destroy (m : Mirror) : Mirror :=
  { m with regions := m.regions.map fun r => { r with attached := false } }

/-- The next animation frame: every pending re-attachment callback runs
`addHandler` (which attaches the listener) on its region. -/
def raf (m : Mirror) : Mirror :=
  { m with regions := m.regions.map fun r =>
      if r.pending then { r with attached := true, pending := false } else r }

/-- The body of `mirrorScrollPositions` for one region that is not the
ignored one: `removeHandler`, `setScrollPosition`, then schedule
re-attachment on the next animation frame. -/
def mirrorOne (opts : Options) (progress : Progress) (r : Region) : Region :=
  { el := setScrollPosition opts progress r.el, attached := false, pending := true }

/-- The `forEach` of `mirrorScrollPositions` over the region list, with the
position index used to identify the optionally ignored region. -/
def mirrorRegions (opts : Options) (progress : Progress) (ignore : Option Nat) :
    Nat → List Region → List Region
  | _, [] => []
  | i, r :: rest =>
    (if ignore = some i then r else mirrorOne opts progress r)
      :: mirrorRegions opts progress ignore (i + 1) rest

/-- `mirrorScrollPositions(progress, ignore)`: apply the progress to every
region except the ignored one, detaching each written region's listener and
scheduling its re-attachment. -/
def mirrorScrollPositions (m : Mirror) (progress : Progress) (ignore : Option Nat) :
    Mirror :=
  { m with regions := mirrorRegions m.options progress ignore 0 m.regions }

/-- The host applies a user scroll to region `i`: its offsets change to the
given values before the scroll event is delivered. -/
def hostScrollRegions (top left : ℚ) : Nat → List Region → List Region
  | _, [] => []
  | 0, r :: rest =>
    { r with el := { r.el with scrollTop := top, scrollLeft := left } } :: rest
  | i + 1, r :: rest => r :: hostScrollRegions top left i rest

/-- The host-side offset update preceding a scroll event on region `i`. -/
def hostScroll (m : Mirror) (i : Nat) (top left : ℚ) : Mirror :=
  { m with regions := hostScrollRegions top left i m.regions }

/-- `handleScroll`: return immediately when paused; otherwise (after the
`nextTick` yield, by which time the offsets have settled) read the scrolled
region's progress and mirror it to all other regions. -/
def handleScroll (m : Mirror) (i : Nat) : Mirror :=
  if m.paused then m
  else
    match m.regions.get? i with
    | none => m
    | some r => mirrorScrollPositions m (getScrollProgress r.el) (some i)

/-- A native scroll event on region `i`: the host updates the region's
offsets, then the instance's `handleScroll` runs only if a listener is
attached to that region's event target. -/
def scrollEvent (m : Mirror) (i : Nat) (top left : ℚ) : Mirror :=
  let m1 := hostScroll m i top left
  match m1.regions.get? i with
  | none => m1
  | some r => if r.attached then handleScroll m1 i else m1

/-- `get progress`: `this.getScrollProgress(this.elements[0])`.  On an empty
element list `this.elements[0]` is `undefined` and the destructuring inside
`getScrollProgress` throws a `TypeError`; `none` models that exception. -/
def progressGet (m : Mirror) : Option Progress :=
  match m.regions.head? with
  | none => none
  | some r => some (getScrollProgress r.el)

/-- `validateProgress(progress)` on finite values: an axis is invalid when
`value < 0 || value > 1`; one `console.error` per invalid axis, iterating
`Object.entries` in insertion order (`x` then `y`). -/
def validateProgress (p : Progress) : Bool × List Diag :=
  let dx : List Diag :=
    if p.x < 0 ∨ 1 < p.x then [Diag.errorProgressAxis "x"] else []
  let dy : List Diag :=
    if p.y < 0 ∨ 1 < p.y then [Diag.errorProgressAxis "y"] else []
  ((dx ++ dy).isEmpty, dx ++ dy)

/-- The argument of the `progress` setter: a single number (applied to both
axes) or an object with optional axes. -/
inductive ProgressInput where
  | num (v : ℚ)
  | obj (ox : Option ℚ) (oy : Option ℚ)
deriving Repr, DecidableEq

/-- `set progress(value)`: read the canonical progress (this evaluates
`this.progress`, which throws — `none` — on an empty region list), merge
`{ ...this.progress, ...value }`, validate, and either reject the write
(returning the unchanged state and the diagnostics) or mirror the merged
progress to every region with no exclusion. -/
def setProgress (m : Mirror) (value : ProgressInput) : Option (Mirror × List Diag) :=
  match progressGet m with
  | none => none
  | some canonical =>
    let merged : Progress :=
      match value with
      | .num v => { x := v, y := v }
      | .obj ox oy => { x := ox.getD canonical.x, y := oy.getD canonical.y }
    let v := validateProgress merged
    if v.fst then some (mirrorScrollPositions m merged none, v.snd)
    else some (m, v.snd)

/-- `new Set(...)` deduplication of the resolved containers, by reference
identity, keeping first occurrences in order. -/
def jsSetDedup (l : List DomElement) : List DomElement :=
  l.foldl (fun acc e => if acc.any (fun x => x.ref == e.ref) then acc else acc ++ [e]) []

/-- The element pipeline of the constructor:
`[...elements].filter(Boolean).map((el) => this.getScrollContainer(el))`
followed by the `Set`-based duplicate removal. -/
def resolveElements (page : Page) (cands : List Candidate) : List DomElement :=
  jsSetDedup ((cands.filter Candidate.isTruthy).map (getScrollContainer page))

/-- The constructor: resolve and deduplicate the candidates, parse the
options, validate; on validation failure return with no handlers attached
(inert instance).  Otherwise attach a handler to every region and, when the
document element is among the regions, run the initial mirror pass from the
document element's current progress. -/
def construct (page : Page) (cands : List Candidate) (opts : InitOptions) :
    Mirror × List Diag :=
  let elements := resolveElements page cands
  let options := parseOptions opts
  let v := validateElements (elements.map some)
  if !v.fst then
    ({ regions := elements.map fun e => { el := e, attached := false, pending := false }
       options := options, paused := false }, v.snd)
  else
    let m0 : Mirror :=
      { regions := elements.map fun e => { el := e, attached := true, pending := false }
        options := options, paused := false }
    let m1 :=
      match elements.findIdx? (fun e => e.ref == page.documentElement.ref) with
      | some i =>
        mirrorScrollPositions m0 (getScrollProgress page.documentElement) (some i)
      | none => m0
    (m1, v.snd)

/-!
## JavaScript number semantics for progress validation

`validateProgress` compares with the IEEE operators `<` and `>`, whose
behaviour on `NaN` (always false) and the infinities decides which writes
are rejected.  `JSNum` models a JavaScript number exactly as far as those
comparisons are concerned.
-/

/-- A JavaScript number: `NaN`, the two infinities, or a finite value. -/
inductive JSNum where
  | nan
  | inf
  | ninf
  | fin (q : ℚ)
deriving Repr, DecidableEq

/-- The IEEE `<` comparison: any comparison involving `NaN` is false. -/
def jsLt : JSNum → JSNum → Bool
  | .nan, _ => false
  | _, .nan => false
  | .inf, _ => false
  | _, .inf => true
  | .ninf, .ninf => false
  | .ninf, .fin _ => true
  | .fin _, .ninf => false
  | .fin a, .fin b => decide (a < b)

/-- A progress pair of JavaScript numbers. -/
structure JSProgress where
  x : JSNum
  y : JSNum
deriving Repr, DecidableEq

/-- The per-axis test of `validateProgress`:
`typeof value !== "number" || value < 0 || value > 1` (the merged object's
axes are numbers, so the `typeof` disjunct is false; `value > 1` is the IEEE
comparison `1 < value`). -/
def jsAxisInvalid (v : JSNum) : Bool :=
  jsLt v (.fin 0) || jsLt (.fin 1) v

/-- Modelled from the spec: the spec's acceptance predicate for one axis of
a progress write — "each axis must be a finite number in [0,1]". -/
def specAxisValid : JSNum → Bool
  | .fin q => decide (0 ≤ q ∧ q ≤ 1)
  | _ => false

/-- `validateProgress` over JavaScript numbers: one `console.error` per
invalid axis, `x` before `y`. -/
def validateProgressJS (p : JSProgress) : Bool × List Diag :=
  let dx : List Diag := if jsAxisInvalid p.x then [Diag.errorProgressAxis "x"] else []
  let dy : List Diag := if jsAxisInvalid p.y then [Diag.errorProgressAxis "y"] else []
  ((dx ++ dy).isEmpty, dx ++ dy)

/-- The setter argument over JavaScript numbers. -/
inductive JSInput where
  | num (v : JSNum)
  | obj (ox : Option JSNum) (oy : Option JSNum)
deriving Repr, DecidableEq

/-- The merge step of the setter, `{ ...this.progress, ...value }`, with a
plain number first expanded to `{ x: value, y: value }`. -/
def jsMerge (value : JSInput) (canonical : JSProgress) : JSProgress :=
  match value with
  | .num v => { x := v, y := v }
  | .obj ox oy => { x := ox.getD canonical.x, y := oy.getD canonical.y }

/-- The decision core of `set progress` over JavaScript numbers: `canonical`
is the current canonical progress (`this.progress`).  The result is
`(some merged, diags)` when the validated write proceeds to
`mirrorScrollPositions(merged)` over every region, and `(none, diags)` when
the write is rejected before any region is touched. -/
def setProgressJS (value : JSInput) (canonical : JSProgress) :
    Option JSProgress × List Diag :=
  let merged := jsMerge value canonical
  let v := validateProgressJS merged
  (if v.fst then some merged else none, v.snd)

/-!
## Helper lemmas
-/

theorem getScrollProgress_x (e : DomElement) :
    (getScrollProgress e).x
      = if e.scrollLeft ≠ 0
          then e.scrollLeft / max ((1 : ℚ)/100000) ((e.scrollWidth - e.clientWidth : ℤ) : ℚ)
          else 0 := rfl

theorem getScrollProgress_y (e : DomElement) :
    (getScrollProgress e).y
      = if e.scrollTop ≠ 0
          then e.scrollTop / max ((1 : ℚ)/100000) ((e.scrollHeight - e.clientHeight : ℤ) : ℚ)
          else 0 := rfl

theorem setScrollPosition_eq (o : Options) (p : Progress) (e : DomElement) :
    setScrollPosition o p e
      = { e with
          scrollTop :=
            if o.vertical && !((e.scrollHeight - e.clientHeight : ℤ) == 0)
              then ((e.scrollHeight - e.clientHeight : ℤ) : ℚ) * p.y
              else e.scrollTop
          scrollLeft :=
            if o.horizontal && !((e.scrollWidth - e.clientWidth : ℤ) == 0)
              then ((e.scrollWidth - e.clientWidth : ℤ) : ℚ) * p.x
              else e.scrollLeft } := by
  simp only [setScrollPosition]
  split_ifs <;> rfl

theorem setScrollPosition_extents (o : Options) (p : Progress) (e : DomElement) :
    (setScrollPosition o p e).scrollWidth = e.scrollWidth
    ∧ (setScrollPosition o p e).clientWidth = e.clientWidth
    ∧ (setScrollPosition o p e).scrollHeight = e.scrollHeight
    ∧ (setScrollPosition o p e).clientHeight = e.clientHeight := by
  rw [setScrollPosition_eq]
  exact ⟨rfl, rfl, rfl, rfl⟩

theorem mirrorRegions_none (o : Options) (p : Progress) :
    ∀ (i : Nat) (l : List Region),
      mirrorRegions o p none i l = l.map (mirrorOne o p) := by
  intro i l
  induction l generalizing i with
  | nil => rfl
  | cons r rest ih =>
    simp only [mirrorRegions, List.map_cons, ih]
    simp

/-!
## C7 — idempotence of mirroring a progress to a region
-/

/-- C7: applying the same progress to a region twice in succession produces
the same final scroll offsets as applying it once; the written offset
depends only on the progress and the region's extents, so repeated
mirroring causes no drift. -/
theorem c7_mirror_idempotent (o : Options) (p : Progress) (e : DomElement) :
    setScrollPosition o p (setScrollPosition o p e) = setScrollPosition o p e := by
  simp only [setScrollPosition_eq]
  split <;> split <;> rfl

/-!
## C2 — progress of a region with zero scrollable distance
-/

/-- A region whose horizontal scroll extent equals its viewport extent
(zero scrollable distance on x) but whose `scrollLeft` is nonzero. -/
def c2El : DomElement :=
  ⟨7, true, true, true, 0, 5, 100, 100, 300, 100⟩

/-- C2 counterexample: the claim quantifies over all values of the scroll
offset, but for a region with zero scrollable x-distance and `scrollLeft`
equal to `5`, `getScrollProgress` returns `5 / max(0.00001, 0) = 500000` on
the x axis — a nonzero value, not `0`. -/
theorem c2_counterexample :
    c2El.scrollWidth = c2El.clientWidth
    ∧ (getScrollProgress c2El).x = 500000
    ∧ ¬ (getScrollProgress c2El).x = 0 := by
  have hx : (getScrollProgress c2El).x = 500000 := by
    rw [getScrollProgress_x]
    norm_num [c2El, max_def]
  refine ⟨rfl, hx, ?_⟩
  rw [hx]
  norm_num

/-- C2 amended, per axis: when a region has zero scrollable distance on an
axis and its offset on that axis is `0` (the only offset the host permits
in that situation), the computed progress on that axis is `0` — each axis
independently, whatever the other axis does; and the divisor
`max(0.00001, available)` is always positive on both axes, so the
computation never divides by zero (no NaN or Infinity). -/
theorem c2_amended (e : DomElement) :
    (e.scrollWidth = e.clientWidth → e.scrollLeft = 0 → (getScrollProgress e).x = 0)
    ∧ (e.scrollHeight = e.clientHeight → e.scrollTop = 0 → (getScrollProgress e).y = 0)
    ∧ (0 : ℚ) < max ((1 : ℚ)/100000) ((e.scrollWidth - e.clientWidth : ℤ) : ℚ)
    ∧ (0 : ℚ) < max ((1 : ℚ)/100000) ((e.scrollHeight - e.clientHeight : ℤ) : ℚ) := by
  refine ⟨?_, ?_, ?_, ?_⟩
  · intro _ hl
    rw [getScrollProgress_x, if_neg]
    simp [hl]
  · intro _ ht
    rw [getScrollProgress_y, if_neg]
    simp [ht]
  · exact lt_max_of_lt_left (by norm_num)
  · exact lt_max_of_lt_left (by norm_num)

/-- A vertically scrolled region (scrollTop 400) with zero horizontal
scrollable distance and `scrollLeft = 0`, for the C2 witness. -/
def c2VertEl : DomElement :=
  ⟨3, true, true, true, 400, 0, 80, 80, 1000, 500⟩

/-- Witness for the amended C2: the x axis of a region with zero horizontal
distance and horizontal offset `0` computes to progress `0` even while the
region is scrolled vertically. -/
theorem c2_amended_witness :
    (c2VertEl.scrollWidth = c2VertEl.clientWidth ∧ c2VertEl.scrollLeft = 0)
    ∧ (getScrollProgress c2VertEl).x = 0 :=
  ⟨⟨rfl, rfl⟩, (c2_amended c2VertEl).1 rfl rfl⟩

/-!
## C1 — validation of progress writes
-/

/-- C1 counterexample: merging the write `mirror.progress = NaN` yields
`NaN` on both axes; neither axis is a finite number in `[0,1]`
(`specAxisValid` is the spec's acceptance predicate), yet the write is NOT
rejected — `validateProgress` compares with IEEE `<` and `>`, which are
false on `NaN`, so the setter proceeds to mirror `{x: NaN, y: NaN}` to
every region and emits no diagnostic at all. -/
theorem c1_counterexample :
    specAxisValid (jsMerge (.num .nan) ⟨.fin 0, .fin 0⟩).x = false
    ∧ specAxisValid (jsMerge (.num .nan) ⟨.fin 0, .fin 0⟩).y = false
    ∧ setProgressJS (.num .nan) ⟨.fin 0, .fin 0⟩
        = (some { x := .nan, y := .nan }, []) := by
  exact ⟨rfl, rfl, rfl⟩

/-- C1 amended: a progress write is rejected (atomically, before any region
is touched) exactly when some axis of the merged value satisfies
`value < 0 || value > 1` under IEEE comparison semantics, and one
diagnostic is emitted per such axis (`x` before `y`).  Finite values
outside `[0,1]` and both infinities are rejected this way — in particular
`progress = 2` is rejected with a diagnostic for both axes — but `NaN`
axes pass the validation and the write proceeds. -/
theorem c1_amended (value : JSInput) (canonical : JSProgress) :
    ((setProgressJS value canonical).fst = none
      ↔ (jsAxisInvalid (jsMerge value canonical).x
          || jsAxisInvalid (jsMerge value canonical).y) = true)
    ∧ (setProgressJS value canonical).snd
        = (if jsAxisInvalid (jsMerge value canonical).x
            then [Diag.errorProgressAxis "x"] else [])
          ++ (if jsAxisInvalid (jsMerge value canonical).y
              then [Diag.errorProgressAxis "y"] else [])
    ∧ jsAxisInvalid .nan = false
    ∧ jsAxisInvalid (.fin 2) = true
    ∧ jsAxisInvalid .inf = true
    ∧ jsAxisInvalid .ninf = true
    ∧ setProgressJS (.num (.fin 2)) canonical
        = (none, [Diag.errorProgressAxis "x", Diag.errorProgressAxis "y"]) := by
  have h2 : jsAxisInvalid (.fin 2) = true := by
    norm_num [jsAxisInvalid, jsLt]
  refine ⟨?_, ?_, rfl, h2, rfl, rfl, ?_⟩
  · rcases Bool.eq_false_or_eq_true (jsAxisInvalid (jsMerge value canonical).x) with hx | hx <;>
      rcases Bool.eq_false_or_eq_true (jsAxisInvalid (jsMerge value canonical).y) with hy | hy <;>
      simp [setProgressJS, validateProgressJS, hx, hy]
  · rcases Bool.eq_false_or_eq_true (jsAxisInvalid (jsMerge value canonical).x) with hx | hx <;>
      rcases Bool.eq_false_or_eq_true (jsAxisInvalid (jsMerge value canonical).y) with hy | hy <;>
      simp [setProgressJS, validateProgressJS, hx, hy]
  · simp [setProgressJS, jsMerge, validateProgressJS, h2]

/-- Witness for the amended C1 at a concrete input. -/
theorem c1_amended_witness :
    ((setProgressJS (.num (.fin 2)) ⟨.fin 0, .fin 0⟩).fst = none
      ↔ (jsAxisInvalid (jsMerge (.num (.fin 2)) ⟨.fin 0, .fin 0⟩).x
          || jsAxisInvalid (jsMerge (.num (.fin 2)) ⟨.fin 0, .fin 0⟩).y) = true) :=
  (c1_amended (.num (.fin 2)) ⟨.fin 0, .fin 0⟩).1

/-!
## C5 — exceptions across the public boundary
-/

/-- A page for the C5 scenario. -/
def c5Page : Page :=
  ⟨⟨50, true, false, false, 0, 0, 100, 100, 1000, 500⟩⟩

/-- C5 counterexample: constructing with an empty candidate collection
yields an inert instance with an empty region list; reading its `progress`
property evaluates `this.getScrollProgress(this.elements[0])`, and
destructuring the `undefined` array entry throws a `TypeError` across the
public boundary (modelled by `none`).  Writing `progress` evaluates the
getter first and throws the same way. -/
theorem c5_counterexample :
    (construct c5Page [] ⟨none, none⟩).fst.regions = []
    ∧ progressGet (construct c5Page [] ⟨none, none⟩).fst = none
    ∧ setProgress (construct c5Page [] ⟨none, none⟩).fst (.num 0) = none := by
  exact ⟨rfl, rfl, rfl⟩

/-- C5 amended: `pause`, `resume` and `destroy` never throw (they are total
state updates, and `destroy` leaves the regions themselves untouched), and
construction never throws; the `progress` accessor is the only public
operation that can throw, and it throws exactly when the registered-region
collection is empty — both on read and (because the setter first reads the
canonical progress) on write. -/
theorem c5_amended (m : Mirror) :
    (progressGet m = none ↔ m.regions = [])
    ∧ (∀ v : ProgressInput, setProgress m v = none ↔ m.regions = [])
    ∧ (pause m).paused = true
    ∧ (resume m).paused = false
    ∧ (destroy m).regions.map Region.el = m.regions.map Region.el := by
  refine ⟨?_, ?_, rfl, rfl, ?_⟩
  · cases hm : m.regions <;> simp [progressGet, hm]
  · intro v
    cases hm : m.regions with
    | nil => simp [setProgress, progressGet, hm]
    | cons r rest =>
      simp only [setProgress, progressGet, hm, List.head?_cons]
      split <;> simp
  · simp [destroy]

/-- A concrete single-region instance for the C5 witness. -/
def c5m : Mirror :=
  ⟨[⟨⟨51, true, true, true, 0, 0, 100, 100, 1000, 500⟩, true, false⟩], ⟨true, true⟩, false⟩

/-- Witness for the amended C5 at a concrete instance. -/
theorem c5_amended_witness :
    (progressGet c5m = none ↔ c5m.regions = [])
    ∧ (pause c5m).paused = true :=
  ⟨(c5_amended c5m).1, (c5_amended c5m).2.2.1⟩

/-!
## C6 — construction with fewer than two distinct containers
-/

/-- C6: when container resolution and reference-equality deduplication
leave fewer than two distinct containers, the constructor emits the
`errorTooFewElements` diagnostic and attaches no scroll handler to any
region: the instance is inert. -/
theorem c6_inert (page : Page) (cands : List Candidate) (opts : InitOptions)
    (h : (resolveElements page cands).length < 2) :
    (∀ r ∈ (construct page cands opts).fst.regions, r.attached = false)
    ∧ Diag.errorTooFewElements ∈ (construct page cands opts).snd := by
  have hv : validateElements ((resolveElements page cands).map some)
      = (false, [Diag.errorTooFewElements]) := by
    rw [validateElements, if_pos (by simpa using h)]
  constructor
  · intro r hr
    simp only [construct, hv, Bool.not_false, if_pos] at hr
    obtain ⟨e, -, rfl⟩ := List.mem_map.1 hr
    rfl
  · simp [construct, hv]

/-- A page and an element for the C6 witness. -/
def c6Page : Page :=
  ⟨⟨60, true, false, false, 0, 0, 100, 100, 1000, 500⟩⟩

/-- A single scrollable body-descendant candidate for the C6 witness. -/
def c6El : DomElement :=
  ⟨61, true, true, true, 0, 0, 100, 100, 1000, 500⟩

/-- Witness for C6: constructing from one single candidate. -/
theorem c6_witness :
    (resolveElements c6Page [Candidate.elem c6El]).length < 2
    ∧ ((∀ r ∈ (construct c6Page [Candidate.elem c6El] ⟨none, none⟩).fst.regions,
          r.attached = false)
        ∧ Diag.errorTooFewElements
            ∈ (construct c6Page [Candidate.elem c6El] ⟨none, none⟩).snd) :=
  ⟨by decide, c6_inert c6Page [Candidate.elem c6El] ⟨none, none⟩ (by decide)⟩

/-!
## C10 — the falsy-element branch of `validateElements` is unreachable
-/

theorem validateLoop_map_some (l : List DomElement) :
    (validateLoop (l.map some)).fst = true
    ∧ Diag.warnElementNotDefined ∉ (validateLoop (l.map some)).snd := by
  induction l with
  | nil => exact ⟨rfl, by simp [validateLoop]⟩
  | cons e t ih =>
    simp only [List.map_cons, validateLoop]
    refine ⟨ih.1, ?_⟩
    simp only [List.mem_append]
    rintro (hmem | hmem)
    · revert hmem
      split_ifs <;> simp
    · exact ih.2 hmem

/-- C10: the element list the constructor passes to `validateElements`
(the resolved, deduplicated containers) contains no falsy entry — every
entry is a present element — so the "element is not defined" warning is
never emitted for it and the boolean outcome of validation is exactly
"at least two deduplicated elements". -/
theorem c10_validate_count (page : Page) (cands : List Candidate) :
    (∀ o ∈ (resolveElements page cands).map some, o.isSome = true)
    ∧ (validateElements ((resolveElements page cands).map some)).fst
        = decide (2 ≤ (resolveElements page cands).length)
    ∧ Diag.warnElementNotDefined
        ∉ (validateElements ((resolveElements page cands).map some)).snd := by
  refine ⟨by simp, ?_, ?_⟩
  · by_cases h : (resolveElements page cands).length < 2
    · rw [validateElements, if_pos (by simpa using h)]
      simp only [Prod.fst]
      symm
      simpa using by omega
    · rw [validateElements, if_neg (by simpa using h)]
      rw [(validateLoop_map_some (resolveElements page cands)).1]
      symm
      simpa using by omega
  · by_cases h : ((resolveElements page cands).map some).length < 2
    · rw [validateElements, if_pos h]
      simp
    · rw [validateElements, if_neg h]
      exact (validateLoop_map_some (resolveElements page cands)).2

/-- Witness for C10 at a concrete candidate list containing a falsy entry
and two distinct elements. -/
theorem c10_witness :
    (validateElements ((resolveElements c6Page
        [Candidate.nullish, Candidate.elem c6El, Candidate.elem c2VertEl]).map some)).fst
      = decide (2 ≤ (resolveElements c6Page
          [Candidate.nullish, Candidate.elem c6El, Candidate.elem c2VertEl]).length) :=
  (c10_validate_count c6Page
    [Candidate.nullish, Candidate.elem c6El, Candidate.elem c2VertEl]).2.1

/-!
## C3 — round trip of a valid progress write
-/

theorem roundtrip_axis (a : ℤ) (q : ℚ) (ha : 0 < a) (h0 : 0 ≤ q) :
    (if ((a : ℚ) * q ≠ 0)
      then ((a : ℚ) * q) / max ((1 : ℚ)/100000) (a : ℚ) else 0) = q := by
  have ha1 : (1 : ℚ) ≤ (a : ℚ) := by exact_mod_cast ha
  have hmax : max ((1 : ℚ)/100000) (a : ℚ) = (a : ℚ) :=
    max_eq_right (le_trans (by norm_num) ha1)
  by_cases hq : q = 0
  · subst hq
    simp
  · have haq : (a : ℚ) ≠ 0 := by positivity
    rw [if_pos (mul_ne_zero haq hq), hmax, mul_comm, mul_div_assoc,
      div_self haq, mul_one]

theorem progress_valid_of_unit (p : Progress)
    (hx0 : 0 ≤ p.x) (hx1 : p.x ≤ 1) (hy0 : 0 ≤ p.y) (hy1 : p.y ≤ 1) :
    validateProgress p = (true, []) := by
  have hvx : ¬(p.x < 0 ∨ 1 < p.x) := by rintro (h | h) <;> linarith
  have hvy : ¬(p.y < 0 ∨ 1 < p.y) := by rintro (h | h) <;> linarith
  simp [validateProgress, hvx, hvy]

/-- C3: setting the progress property to a valid `p` (both axes in `[0,1]`)
mirrors `p` to every region with no exclusion and no diagnostic, and
reading any resulting region's computed progress then gives back exactly
`p` on every axis that is enabled in the options and on which the region
has positive scrollable distance.  (Exact in the rational model, hence in
particular within floating rounding tolerance.) -/
theorem c3_roundtrip (m : Mirror) (p : Progress)
    (hne : m.regions ≠ [])
    (hx0 : 0 ≤ p.x) (hx1 : p.x ≤ 1) (hy0 : 0 ≤ p.y) (hy1 : p.y ≤ 1) :
    setProgress m (.obj (some p.x) (some p.y))
      = some (mirrorScrollPositions m p none, [])
    ∧ ∀ r ∈ (mirrorScrollPositions m p none).regions,
        (m.options.vertical = true → 0 < r.el.scrollHeight - r.el.clientHeight →
          (getScrollProgress r.el).y = p.y)
        ∧ (m.options.horizontal = true → 0 < r.el.scrollWidth - r.el.clientWidth →
          (getScrollProgress r.el).x = p.x) := by
  obtain ⟨r0, rest, hm⟩ : ∃ r0 rest, m.regions = r0 :: rest := by
    cases hmr : m.regions with
    | nil => exact absurd hmr hne
    | cons a l => exact ⟨a, l, rfl⟩
  constructor
  · simp [setProgress, progressGet, hm, progress_valid_of_unit p hx0 hx1 hy0 hy1]
  · intro r hr
    simp only [mirrorScrollPositions, mirrorRegions_none] at hr
    obtain ⟨r1, -, rfl⟩ := List.mem_map.1 hr
    constructor
    · intro hv hpos
      have hpos1 : 0 < r1.el.scrollHeight - r1.el.clientHeight := by
        simpa [mirrorOne, setScrollPosition_eq] using hpos
      have hcond : (m.options.vertical
          && !((r1.el.scrollHeight - r1.el.clientHeight) == 0)) = true := by
        simp [hv, hpos1.ne']
      have hel : (mirrorOne m.options p r1).el.scrollTop
          = ((r1.el.scrollHeight - r1.el.clientHeight : ℤ) : ℚ) * p.y := by
        simp [mirrorOne, setScrollPosition_eq, hcond]
      rw [getScrollProgress_y, hel]
      have hext : (mirrorOne m.options p r1).el.scrollHeight
            - (mirrorOne m.options p r1).el.clientHeight
          = r1.el.scrollHeight - r1.el.clientHeight := by
        simp [mirrorOne, setScrollPosition_eq]
      rw [hext]
      exact roundtrip_axis _ _ hpos1 hy0
    · intro hh hpos
      have hpos1 : 0 < r1.el.scrollWidth - r1.el.clientWidth := by
        simpa [mirrorOne, setScrollPosition_eq] using hpos
      have hcond : (m.options.horizontal
          && !((r1.el.scrollWidth - r1.el.clientWidth) == 0)) = true := by
        simp [hh, hpos1.ne']
      have hel : (mirrorOne m.options p r1).el.scrollLeft
          = ((r1.el.scrollWidth - r1.el.clientWidth : ℤ) : ℚ) * p.x := by
        simp [mirrorOne, setScrollPosition_eq, hcond]
      rw [getScrollProgress_x, hel]
      have hext : (mirrorOne m.options p r1).el.scrollWidth
            - (mirrorOne m.options p r1).el.clientWidth
          = r1.el.scrollWidth - r1.el.clientWidth := by
        simp [mirrorOne, setScrollPosition_eq]
      rw [hext]
      exact roundtrip_axis _ _ hpos1 hx0

/-- A region scrollable on both axes for the C3 witness. -/
def c3El : DomElement :=
  ⟨30, true, true, true, 0, 0, 300, 100, 2000, 1000⟩

/-- A one-region instance for the C3 witness. -/
def c3m : Mirror :=
  ⟨[⟨c3El, true, false⟩], ⟨true, true⟩, false⟩

/-- Witness for C3 at a concrete instance and the progress `{x: 1/2, y: 1/4}`. -/
theorem c3_witness :
    (c3m.regions ≠ [] ∧ (0 : ℚ) ≤ 1/2 ∧ (1/2 : ℚ) ≤ 1 ∧ (0 : ℚ) ≤ 1/4 ∧ (1/4 : ℚ) ≤ 1)
    ∧ (setProgress c3m (.obj (some (1/2)) (some (1/4)))
        = some (mirrorScrollPositions c3m ⟨1/2, 1/4⟩ none, [])
      ∧ ∀ r ∈ (mirrorScrollPositions c3m ⟨1/2, 1/4⟩ none).regions,
          (c3m.options.vertical = true → 0 < r.el.scrollHeight - r.el.clientHeight →
            (getScrollProgress r.el).y = 1/4)
          ∧ (c3m.options.horizontal = true → 0 < r.el.scrollWidth - r.el.clientWidth →
            (getScrollProgress r.el).x = 1/2)) :=
  ⟨⟨by simp [c3m], by norm_num, by norm_num, by norm_num, by norm_num⟩,
    c3_roundtrip c3m ⟨1/2, 1/4⟩ (by simp [c3m])
      (by norm_num) (by norm_num) (by norm_num) (by norm_num)⟩

/-!
## C4 — setting progress with a missing axis
-/

/-- The canonical region of the C4 counterexample: horizontal progress 0. -/
def c4A : DomElement :=
  ⟨40, true, true, true, 0, 0, 200, 100, 2000, 1000⟩

/-- The second region of the C4 counterexample: `scrollLeft = 50`, a
horizontal proportion different from the canonical region's. -/
def c4B : DomElement :=
  ⟨41, true, true, true, 0, 50, 300, 100, 2000, 1000⟩

/-- A two-region instance with horizontal mirroring enabled whose regions
are not horizontally in sync. -/
def c4m : Mirror :=
  ⟨[⟨c4A, true, false⟩, ⟨c4B, true, false⟩], ⟨true, true⟩, false⟩

/-- C4 counterexample: with horizontal mirroring enabled, setting
`progress = {y: 0.5}` on `c4m` changes the second region's horizontal
scroll offset from `50` to `0` — the carried-over canonical `x = 0` is
mirrored to every region, it does not leave horizontal offsets unchanged. -/
theorem c4_counterexample :
    c4m.options.horizontal = true
    ∧ c4m.regions.map (fun r => r.el.scrollLeft) = [0, 50]
    ∧ (setProgress c4m (.obj none (some (1/2)))).map
        (fun out => out.fst.regions.map (fun r => r.el.scrollLeft)) = some [0, 0] := by
  refine ⟨rfl, rfl, ?_⟩
  norm_num [setProgress, progressGet, c4m, c4A, c4B, getScrollProgress, validateProgress,
    mirrorScrollPositions, mirrorRegions_none, mirrorOne, setScrollPosition, max_def]

/-- C4 amended: setting `progress = {y: 0.5}` fills the missing `x` from
the current canonical progress (the first region's) and mirrors the merged
pair to every region: each region's vertical offset is set to half its
available scroll (when vertical is enabled and the distance is nonzero),
and each region's horizontal offset is set to `available · x₀` where `x₀`
is the canonical horizontal proportion — so a horizontal offset is left
unchanged only when the region is already at proportion `x₀`, not in
general. -/
theorem c4_amended (m : Mirror) (r0 : Region)
    (h0 : m.regions.head? = some r0)
    (hh : m.options.horizontal = true)
    (hx0 : 0 ≤ (getScrollProgress r0.el).x) (hx1 : (getScrollProgress r0.el).x ≤ 1) :
    setProgress m (.obj none (some (1/2)))
      = some (mirrorScrollPositions m ⟨(getScrollProgress r0.el).x, 1/2⟩ none, [])
    ∧ (mirrorScrollPositions m ⟨(getScrollProgress r0.el).x, 1/2⟩ none).regions
        = m.regions.map (mirrorOne m.options ⟨(getScrollProgress r0.el).x, 1/2⟩)
    ∧ ∀ e : DomElement,
        (setScrollPosition m.options ⟨(getScrollProgress r0.el).x, 1/2⟩ e).scrollLeft
          = if !((e.scrollWidth - e.clientWidth : ℤ) == 0)
              then ((e.scrollWidth - e.clientWidth : ℤ) : ℚ) * (getScrollProgress r0.el).x
              else e.scrollLeft := by
  refine ⟨?_, ?_, ?_⟩
  · have hval : validateProgress ⟨(getScrollProgress r0.el).x, 1/2⟩ = (true, []) :=
      progress_valid_of_unit _ hx0 hx1 (by norm_num) (by norm_num)
    simp only [setProgress, progressGet, h0, Option.getD_none, Option.getD_some]
    rw [hval]
    rfl
  · simp [mirrorScrollPositions, mirrorRegions_none]
  · intro e
    rw [setScrollPosition_eq]
    simp [hh]

/-- A horizontally synced companion region for the C4 witness. -/
def c4W : DomElement :=
  ⟨42, true, true, true, 0, 0, 400, 100, 3000, 1000⟩

/-- A two-region instance for the C4 witness (canonical progress 0 on x). -/
def c4wm : Mirror :=
  ⟨[⟨c4A, true, false⟩, ⟨c4W, true, false⟩], ⟨true, true⟩, false⟩

/-- Witness for the amended C4 at a concrete instance. -/
theorem c4_amended_witness :
    (c4wm.regions.head? = some ⟨c4A, true, false⟩
      ∧ c4wm.options.horizontal = true
      ∧ 0 ≤ (getScrollProgress c4A).x ∧ (getScrollProgress c4A).x ≤ 1)
    ∧ setProgress c4wm (.obj none (some (1/2)))
        = some (mirrorScrollPositions c4wm
            ⟨(getScrollProgress (⟨c4A, true, false⟩ : Region).el).x, 1/2⟩ none, []) :=
  ⟨⟨rfl, rfl, by norm_num [c4A, getScrollProgress], by norm_num [c4A, getScrollProgress]⟩,
    (c4_amended c4wm ⟨c4A, true, false⟩ rfl rfl
      (by norm_num [c4A, getScrollProgress]) (by norm_num [c4A, getScrollProgress])).1⟩

/-!
## C8 — pause and resume
-/

theorem hostScrollRegions_get_ne (top left : ℚ) :
    ∀ (i j : Nat) (l : List Region), j ≠ i →
      (hostScrollRegions top left i l).get? j = l.get? j := by
  intro i j l
  induction l generalizing i j with
  | nil => intro _; cases i <;> rfl
  | cons r rest ih =>
    intro hj
    cases i with
    | zero =>
      cases j with
      | zero => exact absurd rfl hj
      | succ j => simp [hostScrollRegions]
    | succ i =>
      cases j with
      | zero => simp [hostScrollRegions]
      | succ j =>
        simp only [hostScrollRegions, List.get?_cons_succ]
        exact ih i j (by omega)

/-- C8: while the paused flag is set via `pause()`, a native scroll event on
any region is ignored entirely — the instance state changes only by the
host's own offset update on the scrolled region, every other region's entry
(offsets and listener state alike) is untouched; and after `resume()`
clears the flag, a subsequent scroll event on an attached region runs the
full mirror pass again. -/
theorem c8_pause_blocks (m : Mirror) (i : Nat) (top left : ℚ) :
    (pause m).paused = true
    ∧ scrollEvent (pause m) i top left = hostScroll (pause m) i top left
    ∧ (∀ j, j ≠ i →
        (scrollEvent (pause m) i top left).regions.get? j = m.regions.get? j)
    ∧ (∀ m3 : Mirror, (resume m3).paused = false)
    ∧ ∀ (m3 : Mirror) (r : Region),
        (hostScroll (resume m3) i top left).regions.get? i = some r →
        r.attached = true →
        scrollEvent (resume m3) i top left
          = mirrorScrollPositions (hostScroll (resume m3) i top left)
              (getScrollProgress r.el) (some i) := by
  have hstep : scrollEvent (pause m) i top left = hostScroll (pause m) i top left := by
    have hp : (hostScroll (pause m) i top left).paused = true := rfl
    simp only [scrollEvent]
    cases hg : (hostScroll (pause m) i top left).regions.get? i with
    | none => rfl
    | some r => simp [hg, handleScroll, hp]
  refine ⟨rfl, hstep, ?_, fun _ => rfl, ?_⟩
  · intro j hj
    rw [hstep]
    exact hostScrollRegions_get_ne top left i j m.regions hj
  · intro m3 r hg ha
    have hp : (hostScroll (resume m3) i top left).paused = false := rfl
    simp only [scrollEvent, handleScroll]
    rw [hg]
    simp [ha, hp, hg]

/-- Witness for C8 at a concrete paused instance and a concrete resumed
scroll. -/
theorem c8_pause_blocks_witness :
    scrollEvent (pause c4m) 0 500 0 = hostScroll (pause c4m) 0 500 0
    ∧ (scrollEvent (pause c4m) 0 500 0).regions.get? 1 = c4m.regions.get? 1 := by
  have h := c8_pause_blocks c4m 0 500 0
  exact ⟨h.2.1, h.2.2.1 1 (by omega)⟩

/-!
## C9 — destroy
-/

theorem hostScrollRegions_mem_attached (top left : ℚ) :
    ∀ (i : Nat) (l : List Region) (r : Region), r ∈ hostScrollRegions top left i l →
      ∃ x ∈ l, r.attached = x.attached := by
  intro i l
  induction l generalizing i with
  | nil => intro r hr; cases i <;> simp [hostScrollRegions] at hr
  | cons a rest ih =>
    intro r hr
    cases i with
    | zero =>
      rcases List.mem_cons.1 hr with hr | hr
      · exact ⟨a, List.mem_cons_self a rest, by rw [hr]⟩
      · exact ⟨r, List.mem_cons_of_mem a hr, rfl⟩
    | succ i =>
      rcases List.mem_cons.1 hr with hr | hr
      · exact ⟨a, List.mem_cons_self a rest, by rw [hr]⟩
      · obtain ⟨x, hx, he⟩ := ih i r hr
        exact ⟨x, List.mem_cons_of_mem a hx, he⟩

/-- The first region of the C9 scenario (scrollHeight 2000, clientHeight
1000). -/
def c9A : DomElement :=
  ⟨90, true, true, true, 0, 0, 100, 100, 2000, 1000⟩

/-- The second region of the C9 scenario (scrollHeight 1000, clientHeight
500). -/
def c9B : DomElement :=
  ⟨91, true, true, true, 0, 0, 100, 100, 1000, 500⟩

/-- A live two-region instance for the C9 scenario. -/
def c9m : Mirror :=
  ⟨[⟨c9A, true, false⟩, ⟨c9B, true, false⟩], ⟨true, true⟩, false⟩

/-- C9 counterexample: a scroll on region 0 leaves region 1 with a pending
animation-frame re-attachment; `destroy()` then detaches every handler
(tops are `[500, 250]` at that point) — but the already-scheduled callback
still runs on the next frame and re-attaches region 1's handler, so a later
native scroll event on region 1 mirrors into region 0 again, moving its
top from `500` to `200`.  `destroy` does not leave the instance inert. -/
theorem c9_counterexample :
    ((destroy (scrollEvent c9m 0 500 0)).regions.map (fun r => r.attached)
      = [false, false])
    ∧ ((destroy (scrollEvent c9m 0 500 0)).regions.map (fun r => r.el.scrollTop)
      = [500, 250])
    ∧ ((scrollEvent (raf (destroy (scrollEvent c9m 0 500 0))) 1 100 0).regions.map
        (fun r => r.el.scrollTop) = [200, 100]) := by
  refine ⟨?_, ?_, ?_⟩ <;>
    norm_num [scrollEvent, hostScroll, hostScrollRegions, handleScroll, destroy, raf,
      c9m, c9A, c9B, getScrollProgress, mirrorScrollPositions, mirrorRegions, mirrorOne,
      setScrollPosition, max_def]

/-- C9 amended: provided no animation-frame re-attachment is pending when
`destroy()` is called (no mirror pass in flight), destroy detaches the
handler of every region while leaving the regions themselves untouched,
the next animation frame changes nothing, and every subsequent native
scroll event is inert — it changes only the scrolled region's own offsets
(the host update) and mirrors nothing to any other region.  A pending
re-attachment scheduled before `destroy` would, however, re-attach that
region's handler afterwards. -/
theorem c9_destroy_inert (m : Mirror)
    (hq : ∀ r ∈ m.regions, r.pending = false) :
    (∀ r ∈ (destroy m).regions, r.attached = false)
    ∧ (destroy m).regions.map Region.el = m.regions.map Region.el
    ∧ raf (destroy m) = destroy m
    ∧ ∀ (i : Nat) (top left : ℚ),
        scrollEvent (destroy m) i top left = hostScroll (destroy m) i top left := by
  refine ⟨?_, by simp [destroy], ?_, ?_⟩
  · intro r hr
    obtain ⟨x, -, rfl⟩ := List.mem_map.1 hr
    rfl
  · simp only [raf, destroy, List.map_map]
    congr 1
    apply List.map_congr_left
    intro r hr
    simp [hq r hr]
  · intro i top left
    simp only [scrollEvent]
    cases hg : (hostScroll (destroy m) i top left).regions.get? i with
    | none => rfl
    | some r =>
      have hr : r ∈ hostScrollRegions top left i (destroy m).regions := by
        have := List.get?_eq_some.1 hg
        obtain ⟨hlt, hget⟩ := this
        exact hget ▸ List.get_mem _ _ _
      obtain ⟨x, hx, he⟩ := hostScrollRegions_mem_attached top left i _ r hr
      obtain ⟨x0, -, rfl⟩ := List.mem_map.1 hx
      simp [hg, he]

/-- Witness for the amended C9 at a concrete quiescent instance. -/
theorem c9_destroy_inert_witness :
    (∀ r ∈ c9m.regions, r.pending = false)
    ∧ raf (destroy c9m) = destroy c9m
    ∧ scrollEvent (destroy c9m) 0 500 0 = hostScroll (destroy c9m) 0 500 0 := by
  have h := c9_destroy_inert c9m (by decide)
  exact ⟨by decide, h.2.2.1, h.2.2.2 0 500 0⟩

end ScrollMirror
